import Mathlib

/-!
Shallow embedding of the navigation / selection controller of the
fileshare-frontend repository.

The embedded code lives in:
* `src/unnamed/part_005`, `src/unnamed/part_006`, `src/unnamed/part_007` —
  three variants of the top-level `App` component holding the navigation
  state (`currentDirectoryId`, `breadcrumbPath`), the selection state
  (`selectionMode`, `selectedFileIds`, `selectedDirectoryIds`) and the
  handlers `handleNavigate`, `handleSelectionToggle`, `handleClearSelection`
  and `fetchFiles`.  `handleNavigate` and `handleClearSelection` are
  textually identical across the three variants; `handleSelectionToggle`
  differs between `part_005` (auto-exit of selection mode) and
  `part_006`/`part_007` (no auto-exit), so both variants are embedded.
* `src/src/components/SelectionToolbar.tsx` — `moveTargets`,
  `handleBulkDelete`, `handleBulkMove`.
* `src/src/components/NewFolderModal.tsx` — `handleSubmit`.

Network calls are modelled by explicit outcome parameters (the value the
`await`ed call would produce, `none`/`false` meaning rejection) together
with an explicit record of which requests were issued.
-/

namespace FileShare

/-- JavaScript `Array.prototype.findIndex`: index of the first element
satisfying the predicate; `none` models the `-1` result. -/
def findIndex {α : Type} (p : α → Bool) : List α → Option Nat
  | [] => none
  | a :: l => if p a then some 0 else (findIndex p l).map (· + 1)

/-- Breadcrumb entry (`BreadcrumbItem` in `src/src/types/index.ts`):
directory id and display name. -/
structure BreadcrumbItem where
  id : String
  name : String
deriving DecidableEq, Repr

/-- Directory metadata, restricted to the fields the embedded handlers
read (`DirectoryMetadata` in `src/src/types/index.ts`). -/
structure DirectoryMetadata where
  id : String
  name : String
deriving DecidableEq, Repr

/-- The `App` component's state relevant to navigation and selection:
the five `useState` cells of `src/unnamed/part_006` lines 23-29. -/
structure AppState where
  currentDirectoryId : Option String
  breadcrumbPath : List BreadcrumbItem
  selectionMode : Bool
  selectedFileIds : List String
  selectedDirectoryIds : List String
deriving DecidableEq, Repr

/-- Result of a `handleNavigate` call: the committed state, whether the
directory-metadata fetch (`GET /api/directories/:id`) was issued, and
whether the error toast was shown. -/
structure NavigateResult where
  state : AppState
  fetchIssued : Bool
  errorToast : Bool
deriving DecidableEq, Repr

/-- Embedding of `handleNavigate` (`src/unnamed/part_006` lines 111-143;
identical in `part_005` lines 114-146 and in `part_007`).
`fetchDirInfo` is the outcome of the directory-metadata fetch in the
not-in-breadcrumb branch: `some info` for a 2xx response with that body,
`none` for a network error or a non-ok response.  The handler only ever
writes `currentDirectoryId` and `breadcrumbPath`; the selection cells are
untouched by the source code. -/
def handleNavigate (s : AppState) (directoryId : Option String)
    (fetchDirInfo : Option DirectoryMetadata) : NavigateResult :=
  match directoryId with
  | none =>
      -- Going to root
      ⟨{ s with currentDirectoryId := none, breadcrumbPath := [] }, false, false⟩
  | some id =>
      match findIndex (fun item => item.id = id) s.breadcrumbPath with
      | some existingIndex =>
          -- Navigate back to an existing directory in the path
          ⟨{ s with breadcrumbPath := s.breadcrumbPath.take (existingIndex + 1),
                    currentDirectoryId := some id }, false, false⟩
      | none =>
          -- Navigate to a new directory
          match fetchDirInfo with
          | some dirInfo =>
              ⟨{ s with breadcrumbPath := s.breadcrumbPath ++ [⟨id, dirInfo.name⟩],
                        currentDirectoryId := some id }, true, false⟩
          | none => ⟨s, true, true⟩

/-- Selection state: the three selection `useState` cells of `App`. -/
structure SelectionState where
  selectionMode : Bool
  selectedFileIds : List String
  selectedDirectoryIds : List String
deriving DecidableEq, Repr

/-- The list update both `handleSelectionToggle` variants apply to the
relevant id list: `prev.includes(id) ? prev.filter((x) => x !== id)
: [...prev, id]`. -/
def toggleList (prev : List String) (id : String) : List String :=
  if prev.contains id then prev.filter (fun x => x ≠ id) else prev ++ [id]

/-- Embedding of `handleClearSelection` (identical in all three `App`
variants): selection mode off, both id lists emptied. -/
def handleClearSelection : SelectionState :=
  ⟨false, [], []⟩

namespace Part006

/-- Embedding of `handleSelectionToggle` from `src/unnamed/part_006`
lines 145-160 (identical in `part_007`): if selection mode is off it is
turned on, then the relevant id list is toggled.  Nothing ever turns the
mode off here. -/
def handleSelectionToggle (s : SelectionState) (id : String)
    (isDirectory : Bool) : SelectionState :=
  let mode := if s.selectionMode = false then true else s.selectionMode
  if isDirectory then
    ⟨mode, s.selectedFileIds, toggleList s.selectedDirectoryIds id⟩
  else
    ⟨mode, toggleList s.selectedFileIds id, s.selectedDirectoryIds⟩

end Part006

namespace Part005

/-- Embedding of `handleSelectionToggle` from `src/unnamed/part_005`
lines 148-173: as in `part_006`, but after computing the new id list the
updater auto-exits selection mode when the new list is empty and the
sibling list (read from the pre-call state captured by the closure) is
also empty. -/
def handleSelectionToggle (s : SelectionState) (id : String)
    (isDirectory : Bool) : SelectionState :=
  let mode1 := if s.selectionMode = false then true else s.selectionMode
  if isDirectory then
    let newSelection := toggleList s.selectedDirectoryIds id
    let mode2 :=
      if newSelection.length = 0 ∧ s.selectedFileIds.length = 0 then false else mode1
    ⟨mode2, s.selectedFileIds, newSelection⟩
  else
    let newSelection := toggleList s.selectedFileIds id
    let mode2 :=
      if newSelection.length = 0 ∧ s.selectedDirectoryIds.length = 0 then false else mode1
    ⟨mode2, newSelection, s.selectedDirectoryIds⟩

end Part005

/-- An HTTP request issued through `fileApi` by the embedded components. -/
inductive Request where
  | bulkDelete (fileIds : List String) (directoryIds : List String)
  | moveFile (fileId : String) (targetDirectoryId : String)
  | moveDirectory (directoryId : String) (targetDirectoryId : String)
  | createDirectory (name : List Char) (parentId : Option String)
deriving DecidableEq, Repr

/-- Body of a successful `fileApi.bulkDelete` response (field names as in
the source: `deleted_files`, `deleted_directories`). -/
structure BulkDeleteResponse where
  deleted_files : Nat
  deleted_directories : Nat
deriving DecidableEq, Repr

/-- Observable outcome of a `SelectionToolbar` bulk handler: the selection
state after the `onClearSelection` callback (or the untouched input state),
whether `onDeleteSuccess` (a listing refresh via `fetchFiles`) was
triggered, the requests issued over the network, and whether the error
toast was shown. -/
structure ToolbarResult where
  selection : SelectionState
  refreshTriggered : Bool
  requests : List Request
  errorToast : Bool
deriving DecidableEq, Repr

/-- Embedding of `handleBulkDelete` (`src/src/components/SelectionToolbar.tsx`
lines 45-81).  `confirmed` is the `window.confirm` answer; `outcome` is the
batch request's result (`some resp` for a 2xx response, `none` for a
rejected request).  On success the component calls `onDeleteSuccess()`
(refresh) and `onClearSelection()`; on rejection it only shows an error
toast, leaving the selection as it was. -/
def handleBulkDelete (s : SelectionState) (confirmed : Bool)
    (outcome : Option BulkDeleteResponse) : ToolbarResult :=
  if confirmed = false then
    ⟨s, false, [], false⟩
  else
    match outcome with
    | some _ =>
        ⟨handleClearSelection, true,
          [Request.bulkDelete s.selectedFileIds s.selectedDirectoryIds], false⟩
    | none =>
        ⟨s, false,
          [Request.bulkDelete s.selectedFileIds s.selectedDirectoryIds], true⟩

/-- Embedding of `handleBulkMove` (`src/src/components/SelectionToolbar.tsx`
lines 83-104).  One `fileApi.moveFile` request per selected file id is
issued first (`Promise.all`); if all of them succeed, one
`fileApi.moveDirectory` request per selected directory id is issued; if the
first batch rejects, the second is never created.  `ok` tells which
individual requests succeed.  Only when every request succeeds are
`onDeleteSuccess()` and `onClearSelection()` called; on any failure the
component only shows an error toast. -/
def handleBulkMove (s : SelectionState) (targetDirectoryId : String)
    (ok : Request → Bool) : ToolbarResult :=
  let fileReqs := s.selectedFileIds.map (fun fid => Request.moveFile fid targetDirectoryId)
  let dirReqs :=
    s.selectedDirectoryIds.map (fun did => Request.moveDirectory did targetDirectoryId)
  if fileReqs.all ok = true then
    if dirReqs.all ok = true then
      ⟨handleClearSelection, true, fileReqs ++ dirReqs, false⟩
    else
      ⟨s, false, fileReqs ++ dirReqs, true⟩
  else
    ⟨s, false, fileReqs, true⟩

/-- Embedding of `moveTargets` (`src/src/components/SelectionToolbar.tsx`
lines 29-32): the folders offered as move destinations are the available
folders whose id is not currently selected. -/
def moveTargets (availableFolders : List DirectoryMetadata)
    (selectedDirectoryIds : List String) : List DirectoryMetadata :=
  availableFolders.filter (fun folder => !(selectedDirectoryIds.contains folder.id))

/-- JavaScript `String.prototype.trim` on a list of characters: leading and
trailing whitespace removed. -/
def jsTrim (s : List Char) : List Char :=
  ((s.dropWhile Char.isWhitespace).reverse.dropWhile Char.isWhitespace).reverse

/-- Result of submitting the new-folder form: either a validation error
shown as a toast (no network call), or a `createDirectory` request. -/
inductive SubmitResult where
  | validationError (msg : String)
  | request (req : Request)
deriving DecidableEq, Repr

/-- Embedding of `handleSubmit` (`src/src/components/NewFolderModal.tsx`
lines 25-52): the entered name is trimmed; an empty trimmed name or a
trimmed name longer than 255 characters is rejected before any network
call; otherwise `fileApi.createDirectory(trimmedName, parentDirectoryId)`
is issued. -/
def handleSubmit (folderName : List Char) (parentDirectoryId : Option String) :
    SubmitResult :=
  let trimmedName := jsTrim folderName
  if trimmedName.length = 0 then
    SubmitResult.validationError "Folder name cannot be empty"
  else if 255 < trimmedName.length then
    SubmitResult.validationError "Folder name is too long"
  else
    SubmitResult.request (Request.createDirectory trimmedName parentDirectoryId)

/-- A listing payload returned by `GET /api/files` (file and directory ids
suffice for the ordering question). -/
structure Listing where
  files : List String
  directories : List String
deriving DecidableEq, Repr

/-- The slice of `App` state involved in the listing race: which directory
is current, and the listing on display. -/
structure ListingState where
  currentDirectoryId : Option String
  files : List String
  directories : List String
deriving DecidableEq, Repr

/-- An event of the single-threaded event loop relevant to listings: a
navigation's state update commits (which starts a listing fetch for that
directory via the `useEffect` on `currentDirectoryId`, lines 90-93 of
`src/unnamed/part_006`), or a listing response for the directory captured
at call time arrives. -/
inductive ListingEvent where
  | navigateApplied (directoryId : Option String)
  | listingArrives (target : Option String) (listing : Listing)
deriving DecidableEq, Repr

/-- Effect of one event on the listing state.  `fetchFiles`
(`src/unnamed/part_006` lines 34-59) stores an arriving response with
`setFiles`/`setDirectories` unconditionally: the `target` captured at call
time is used only to build the query string and is never compared against
the current directory id when the response lands. -/
def applyListingEvent (s : ListingState) : ListingEvent → ListingState
  | ListingEvent.navigateApplied d => { s with currentDirectoryId := d }
  | ListingEvent.listingArrives _ l =>
      { s with files := l.files, directories := l.directories }

/-- Run of the event loop over a sequence of completed events. -/
def runListing (s : ListingState) (es : List ListingEvent) : ListingState :=
  es.foldl applyListingEvent s

/-- The spec's selection-mode invariant: the flag is set exactly when at
least one id is selected across the two selection lists. -/
def selectionInvariant (s : SelectionState) : Prop :=
  s.selectionMode = true ↔ 0 < s.selectedFileIds.length + s.selectedDirectoryIds.length

instance (s : SelectionState) : Decidable (selectionInvariant s) := by
  unfold selectionInvariant; infer_instance

/-! Helper lemmas. -/

theorem findIndex_eq_none {α : Type} (p : α → Bool) :
    ∀ (l : List α), (∀ a ∈ l, p a = false) → findIndex p l = none := by
  intro l
  induction l with
  | nil => intro _; rfl
  | cons a t ih =>
      intro h
      have ha : p a = false := h a (List.mem_cons_self a t)
      have ht : findIndex p t = none := ih fun b hb => h b (List.mem_cons_of_mem a hb)
      simp [findIndex, ha, ht]

theorem findIndex_map_nodup {α β : Type} [DecidableEq β] (f : α → β) :
    ∀ (l : List α) (k : Nat) (hk : k < l.length) (b : β),
      (l.map f).Nodup → f (l.get ⟨k, hk⟩) = b →
      findIndex (fun a => f a = b) l = some k := by
  intro l
  induction l with
  | nil => intro k hk; exact absurd hk (Nat.not_lt_zero k)
  | cons a t ih =>
      intro k hk b hn hb
      match k with
      | 0 =>
          have : f a = b := hb
          simp [findIndex, this]
      | Nat.succ k =>
          have hk' : k < t.length := Nat.lt_of_succ_lt_succ hk
          have hbt : b ∈ t.map f := by
            rw [← hb]
            exact List.mem_map_of_mem f (List.get_mem t k hk')
          have hna : f a ∉ t.map f := by
            rw [List.map_cons, List.nodup_cons] at hn
            exact hn.1
          have hab : (f a = b) = False := by
            simp only [eq_iff_iff, iff_false]
            intro hfa
            exact hna (hfa ▸ hbt)
          have ht : findIndex (fun x => f x = b) t = some k :=
            ih k hk' b (by rw [List.map_cons, List.nodup_cons] at hn; exact hn.2) hb
          simp [findIndex, hab, ht]

theorem toggleList_nodup (prev : List String) (id : String) (h : prev.Nodup) :
    (toggleList prev id).Nodup := by
  unfold toggleList
  by_cases hc : prev.contains id = true
  · rw [if_pos hc]
    exact h.filter _
  · rw [if_neg hc]
    have hm : id ∉ prev := by
      intro hmem
      exact hc (List.elem_eq_true_of_mem hmem)
    simp [List.nodup_append, h, hm]

theorem toggleList_removes (prev : List String) (id : String)
    (h : prev.contains id = true) : id ∉ toggleList prev id := by
  unfold toggleList
  rw [if_pos h]
  simp [List.mem_filter]

theorem toggleList_adds_once (prev : List String) (id : String)
    (h : prev.contains id = false) : (toggleList prev id).count id = 1 := by
  unfold toggleList
  have hm : id ∉ prev := by simpa using h
  rw [if_neg (by simpa using hm)]
  simp [List.count_append, List.count_eq_zero_of_not_mem hm]

theorem bulkMove_selection_cases (s : SelectionState) (target : String)
    (ok : Request → Bool) :
    (handleBulkMove s target ok).selection = handleClearSelection ∨
      (handleBulkMove s target ok).selection = s := by
  unfold handleBulkMove
  dsimp only
  split_ifs <;> simp

/-- Claim C1 (code evaluated at the failing input): starting from a state
with a non-empty selection, each kind of successful `navigate` — to root,
backward into the breadcrumb, and forward after a successful metadata
fetch — completes without error yet leaves both selection id lists and the
selection-mode flag exactly as they were; the claimed unconditional
clearing of the selection does not happen anywhere in `handleNavigate`. -/
theorem c1_navigate_leaves_selection_intact :
    (handleNavigate ⟨some "dir2", [⟨"dir1", "Photos"⟩, ⟨"dir2", "Vacation"⟩],
        true, ["f1"], ["d1"]⟩ none none).errorToast = false ∧
    (handleNavigate ⟨some "dir2", [⟨"dir1", "Photos"⟩, ⟨"dir2", "Vacation"⟩],
        true, ["f1"], ["d1"]⟩ none none).state.selectionMode = true ∧
    (handleNavigate ⟨some "dir2", [⟨"dir1", "Photos"⟩, ⟨"dir2", "Vacation"⟩],
        true, ["f1"], ["d1"]⟩ none none).state.selectedFileIds = ["f1"] ∧
    (handleNavigate ⟨some "dir2", [⟨"dir1", "Photos"⟩, ⟨"dir2", "Vacation"⟩],
        true, ["f1"], ["d1"]⟩ none none).state.selectedDirectoryIds = ["d1"] ∧
    (handleNavigate ⟨some "dir2", [⟨"dir1", "Photos"⟩, ⟨"dir2", "Vacation"⟩],
        true, ["f1"], ["d1"]⟩ (some "dir1") none).errorToast = false ∧
    (handleNavigate ⟨some "dir2", [⟨"dir1", "Photos"⟩, ⟨"dir2", "Vacation"⟩],
        true, ["f1"], ["d1"]⟩ (some "dir1") none).state.selectedFileIds = ["f1"] ∧
    (handleNavigate ⟨some "dir2", [⟨"dir1", "Photos"⟩, ⟨"dir2", "Vacation"⟩],
        true, ["f1"], ["d1"]⟩ (some "dir3") (some ⟨"dir3", "New"⟩)).errorToast = false ∧
    (handleNavigate ⟨some "dir2", [⟨"dir1", "Photos"⟩, ⟨"dir2", "Vacation"⟩],
        true, ["f1"], ["d1"]⟩ (some "dir3") (some ⟨"dir3", "New"⟩)).state.selectedFileIds
      = ["f1"] := by
  decide

/-- Claim C2 counterexample: with the `handleSelectionToggle` of
`src/unnamed/part_006` (and `part_007`), toggling off the only selected
item leaves `selectionMode = true` with both selection lists empty, so the
claimed "mode iff non-empty selection" equivalence fails right after a
`toggleSelect`. -/
theorem c2_counterexample :
    (Part006.handleSelectionToggle ⟨true, ["f1"], []⟩ "f1" false).selectionMode = true ∧
    (Part006.handleSelectionToggle ⟨true, ["f1"], []⟩ "f1" false).selectedFileIds = [] ∧
    (Part006.handleSelectionToggle ⟨true, ["f1"], []⟩ "f1" false).selectedDirectoryIds
      = [] := by
  decide

/-- Claim C2 as amended: the `part_005` variant of `handleSelectionToggle`
establishes the mode-iff-non-empty invariant after every call, and
`handleClearSelection` and both bulk handlers preserve it; but in the
`part_006`/`part_007` variant `handleSelectionToggle` always leaves
`selectionMode = true`, so there the flag is not deactivated when the last
selected item is toggled off. -/
theorem c2_amended :
    (∀ (s : SelectionState) (id : String) (isDirectory : Bool),
        selectionInvariant (Part005.handleSelectionToggle s id isDirectory)) ∧
    selectionInvariant handleClearSelection ∧
    (∀ (s : SelectionState) (confirmed : Bool) (outcome : Option BulkDeleteResponse),
        selectionInvariant s →
        selectionInvariant (handleBulkDelete s confirmed outcome).selection) ∧
    (∀ (s : SelectionState) (target : String) (ok : Request → Bool),
        selectionInvariant s →
        selectionInvariant (handleBulkMove s target ok).selection) ∧
    (∀ (s : SelectionState) (id : String) (isDirectory : Bool),
        (Part006.handleSelectionToggle s id isDirectory).selectionMode = true) := by
  refine ⟨?_, ?_, ?_, ?_, ?_⟩
  · intro s id isDirectory
    rcases s with ⟨m, fs, ds⟩
    cases isDirectory with
    | false =>
        show selectionInvariant
          ⟨if (toggleList fs id).length = 0 ∧ ds.length = 0 then false
            else if m = false then true else m, toggleList fs id, ds⟩
        by_cases h : (toggleList fs id).length = 0 ∧ ds.length = 0
        · simp [selectionInvariant, if_pos h, h.1, h.2]
        · unfold selectionInvariant
          dsimp only
          rw [if_neg h]
          constructor
          · intro _
            rcases not_and_or.mp h with h1 | h1 <;> omega
          · intro _
            cases m <;> rfl
    | true =>
        show selectionInvariant
          ⟨if (toggleList ds id).length = 0 ∧ fs.length = 0 then false
            else if m = false then true else m, fs, toggleList ds id⟩
        by_cases h : (toggleList ds id).length = 0 ∧ fs.length = 0
        · simp [selectionInvariant, if_pos h, h.1, h.2]
        · unfold selectionInvariant
          dsimp only
          rw [if_neg h]
          constructor
          · intro _
            rcases not_and_or.mp h with h1 | h1 <;> omega
          · intro _
            cases m <;> rfl
  · decide
  · intro s confirmed outcome h
    cases confirmed with
    | false => simpa [handleBulkDelete] using h
    | true =>
        cases outcome with
        | none => simpa [handleBulkDelete] using h
        | some resp => simp [handleBulkDelete, handleClearSelection, selectionInvariant]
  · intro s target ok h
    rcases bulkMove_selection_cases s target ok with hc | hc <;> rw [hc]
    · simp [handleClearSelection, selectionInvariant]
    · exact h
  · intro s id isDirectory
    rcases s with ⟨m, fs, ds⟩
    cases isDirectory <;> cases m <;> rfl

/-- Witness for the amended claim C2, discharging the invariant hypothesis
at a concrete selection state. -/
theorem c2_amended_witness :
    selectionInvariant (handleBulkDelete ⟨true, ["f1"], []⟩ true none).selection :=
  c2_amended.2.2.1 ⟨true, ["f1"], []⟩ true none (by decide)

/-- Claim C3: a forward navigation (target not on the breadcrumb path)
whose directory-metadata fetch fails leaves the whole `App` state — in
particular `currentDirectoryId` and `breadcrumbPath` — exactly as it was,
with the fetch having been issued and the navigation error surfaced. -/
theorem c3_navigate_failure_leaves_state_unchanged (s : AppState) (target : String)
    (h : ∀ item ∈ s.breadcrumbPath, item.id ≠ target) :
    handleNavigate s (some target) none = ⟨s, true, true⟩ := by
  have hf : findIndex (fun item => item.id = target) s.breadcrumbPath = none := by
    apply findIndex_eq_none
    intro a ha
    simp [h a ha]
  simp [handleNavigate, hf]

/-- Witness for claim C3 at a concrete state and failing fetch. -/
theorem c3_navigate_failure_witness :
    handleNavigate ⟨some "dir1", [⟨"dir1", "Photos"⟩], true, ["f1"], []⟩
        (some "dir9") none =
      ⟨⟨some "dir1", [⟨"dir1", "Photos"⟩], true, ["f1"], []⟩, true, true⟩ :=
  c3_navigate_failure_leaves_state_unchanged
    ⟨some "dir1", [⟨"dir1", "Photos"⟩], true, ["f1"], []⟩ "dir9" (by decide)

/-- Claim C4 counterexample: `handleBulkMove` invoked with a target equal
to a selected directory id does issue a move request over the network
(moving `d1` into itself); no defensive rejection happens in the
handler. -/
theorem c4_counterexample :
    ("d1" : String) ∈ (["d1"] : List String) ∧
    (handleBulkMove ⟨true, [], ["d1"]⟩ "d1" (fun _ => true)).requests =
      [Request.moveDirectory "d1" "d1"] := by
  decide

/-- Claim C4 as amended: the self-containment guard exists only at the UI
level — `moveTargets` never offers a folder whose id is currently
selected — while `handleBulkMove` itself performs no defensive check and
issues one move request per selected directory id regardless of whether
the target is among them. -/
theorem c4_amended :
    (∀ (availableFolders : List DirectoryMetadata)
        (selectedDirectoryIds : List String) (folder : DirectoryMetadata),
        folder ∈ moveTargets availableFolders selectedDirectoryIds →
        ¬ folder.id ∈ selectedDirectoryIds) ∧
    (∀ (s : SelectionState) (target : String) (ok : Request → Bool),
        s.selectedFileIds = [] →
        (handleBulkMove s target ok).requests =
          s.selectedDirectoryIds.map (fun did => Request.moveDirectory did target)) := by
  constructor
  · intro availableFolders selectedDirectoryIds folder hf
    have := (List.mem_filter.mp hf).2
    simpa using this
  · intro s target ok h
    unfold handleBulkMove
    rw [h]
    dsimp only
    split_ifs <;> simp_all

/-- Witness for the amended claim C4, discharging the membership and
empty-file-selection hypotheses at concrete inputs. -/
theorem c4_amended_witness :
    ¬ ("d2" : String) ∈ (["d1"] : List String) ∧
    (handleBulkMove ⟨true, [], ["d1"]⟩ "d1" (fun _ => true)).requests =
      (["d1"] : List String).map (fun did => Request.moveDirectory did "d1") :=
  ⟨c4_amended.1 [⟨"d2", "X"⟩] ["d1"] ⟨"d2", "X"⟩ (by decide),
   c4_amended.2 ⟨true, [], ["d1"]⟩ "d1" (fun _ => true) rfl⟩

/-- Claim C5 counterexample: a `handleBulkMove` call whose move requests
fail ends with the selection left exactly as it was and no listing refresh
triggered, contradicting the claimed clearing and refresh on every
outcome. -/
theorem c5_counterexample :
    (handleBulkMove ⟨true, ["f1"], []⟩ "d2" (fun _ => false)).errorToast = true ∧
    (handleBulkMove ⟨true, ["f1"], []⟩ "d2" (fun _ => false)).selection =
      ⟨true, ["f1"], []⟩ ∧
    (handleBulkMove ⟨true, ["f1"], []⟩ "d2" (fun _ => false)).refreshTriggered
      = false := by
  decide

/-- Claim C5 as amended: only when every per-item move request succeeds
does `handleBulkMove` clear the selection and trigger the listing refresh;
on any failure (in the file batch or the directory batch) it leaves the
selection untouched, triggers no refresh, and only surfaces an error
toast. -/
theorem c5_amended (s : SelectionState) (target : String) (ok : Request → Bool) :
    ((s.selectedFileIds.map (fun fid => Request.moveFile fid target)).all ok = true →
     (s.selectedDirectoryIds.map
        (fun did => Request.moveDirectory did target)).all ok = true →
      (handleBulkMove s target ok).selection = handleClearSelection ∧
      (handleBulkMove s target ok).refreshTriggered = true) ∧
    ((s.selectedFileIds.map (fun fid => Request.moveFile fid target)).all ok = true →
     (s.selectedDirectoryIds.map
        (fun did => Request.moveDirectory did target)).all ok = false →
      (handleBulkMove s target ok).selection = s ∧
      (handleBulkMove s target ok).refreshTriggered = false ∧
      (handleBulkMove s target ok).errorToast = true) ∧
    ((s.selectedFileIds.map (fun fid => Request.moveFile fid target)).all ok = false →
      (handleBulkMove s target ok).selection = s ∧
      (handleBulkMove s target ok).refreshTriggered = false ∧
      (handleBulkMove s target ok).errorToast = true) := by
  refine ⟨fun h1 h2 => ?_, fun h1 h2 => ?_, fun h1 => ?_⟩ <;>
    unfold handleBulkMove <;> dsimp only
  · simp [h1, h2]
  · simp [h1, h2]
  · simp [h1]

/-- Witness for the amended claim C5, discharging the all-requests-succeed
hypotheses at a concrete selection. -/
theorem c5_amended_witness :
    (handleBulkMove ⟨true, ["f1"], []⟩ "d2" (fun _ => true)).selection =
      handleClearSelection ∧
    (handleBulkMove ⟨true, ["f1"], []⟩ "d2" (fun _ => true)).refreshTriggered
      = true :=
  (c5_amended ⟨true, ["f1"], []⟩ "d2" (fun _ => true)).1 (by decide) (by decide)

/-- Claim C6: after a confirmed `handleBulkDelete`, a successful batch
response (with any per-item counts, so also partial failures) clears the
selection and triggers the listing refresh, while a rejected request
leaves the selection exactly as it was, triggers no refresh, and surfaces
an error. -/
theorem c6_bulkDelete_outcomes (s : SelectionState) (resp : BulkDeleteResponse) :
    ((handleBulkDelete s true (some resp)).selection = handleClearSelection ∧
     (handleBulkDelete s true (some resp)).refreshTriggered = true) ∧
    ((handleBulkDelete s true none).selection = s ∧
     (handleBulkDelete s true none).refreshTriggered = false ∧
     (handleBulkDelete s true none).errorToast = true) := by
  refine ⟨⟨rfl, rfl⟩, rfl, rfl, rfl⟩

/-- Claim C7: navigating to a directory sitting at position k of the
(duplicate-free) breadcrumb path truncates the path to its first k+1
entries, makes that directory current, and issues no directory-metadata
fetch — for every possible fetch outcome, since the fetch never happens. -/
theorem c7_navigate_backward_truncates (s : AppState) (target : String) (k : Nat)
    (hk : k < s.breadcrumbPath.length)
    (hnodup : (s.breadcrumbPath.map BreadcrumbItem.id).Nodup)
    (hid : (s.breadcrumbPath.get ⟨k, hk⟩).id = target)
    (fetchDirInfo : Option DirectoryMetadata) :
    handleNavigate s (some target) fetchDirInfo =
      ⟨{ s with currentDirectoryId := some target,
                breadcrumbPath := s.breadcrumbPath.take (k + 1) },
       false, false⟩ := by
  have hf : findIndex (fun item => item.id = target) s.breadcrumbPath = some k :=
    findIndex_map_nodup BreadcrumbItem.id s.breadcrumbPath k hk target hnodup hid
  simp [handleNavigate, hf]

/-- Witness for claim C7: Scenario C of the spec, navigating from
dir1/dir2 back to dir1. -/
theorem c7_navigate_backward_witness :
    handleNavigate ⟨some "dir2", [⟨"dir1", "Photos"⟩, ⟨"dir2", "Vacation"⟩],
        false, [], []⟩ (some "dir1") none =
      ⟨⟨some "dir1", [⟨"dir1", "Photos"⟩], false, [], []⟩, false, false⟩ :=
  c7_navigate_backward_truncates
    ⟨some "dir2", [⟨"dir1", "Photos"⟩, ⟨"dir2", "Vacation"⟩], false, [], []⟩
    "dir1" 0 (by decide) (by decide) (by decide) none

/-- Claim C8 counterexample: with two overlapping navigations (to A, then
to B), B's listing arriving first and A's slower listing arriving last,
the final state shows A's listing while the current directory is B — the
stale response whose captured target differs from the current directory id
is applied, not discarded. -/
theorem c8_counterexample :
    runListing ⟨none, [], []⟩
      [ListingEvent.navigateApplied (some "A"),
       ListingEvent.navigateApplied (some "B"),
       ListingEvent.listingArrives (some "B") ⟨["b.txt"], []⟩,
       ListingEvent.listingArrives (some "A") ⟨["a.txt"], []⟩] =
      ⟨some "B", ["a.txt"], []⟩ ∧
    (some "A" : Option String) ≠ some "B" ∧
    (["a.txt"] : List String) ≠ ["b.txt"] := by
  decide

/-- Claim C8 as amended: listing responses are applied in arrival order —
whatever listing event arrives last determines the displayed listing,
whether or not its captured target matches the directory that is current
when it lands (the code performs no staleness check). -/
theorem c8_amended (s : ListingState) (es : List ListingEvent)
    (target : Option String) (l : Listing) :
    (runListing s (es ++ [ListingEvent.listingArrives target l])).files = l.files ∧
    (runListing s (es ++ [ListingEvent.listingArrives target l])).directories =
      l.directories ∧
    (runListing s (es ++ [ListingEvent.listingArrives target l])).currentDirectoryId =
      (runListing s es).currentDirectoryId := by
  simp [runListing, List.foldl_append, applyListingEvent]

set_option maxRecDepth 8192 in
/-- Claim C9 counterexample: a folder name of 256 characters — 255 letters
followed by a space — is longer than 255 characters, yet `handleSubmit`
issues the network request (with the trimmed name) instead of failing with
a validation error. -/
theorem c9_counterexample :
    (List.replicate 255 'a' ++ [' ']).length = 256 ∧
    handleSubmit (List.replicate 255 'a' ++ [' ']) none =
      SubmitResult.request
        (Request.createDirectory (List.replicate 255 'a') none) := by
  decide

/-- Claim C9 as amended: validation applies to the trimmed name — the
submission fails with a validation error, before any network call, exactly
when the trimmed name is empty or longer than 255 characters, and any
request actually issued carries the trimmed name, which is non-empty and
at most 255 characters long. -/
theorem c9_amended (folderName : List Char) (parentDirectoryId : Option String) :
    ((jsTrim folderName).length = 0 ∨ 255 < (jsTrim folderName).length →
      ∃ msg, handleSubmit folderName parentDirectoryId =
        SubmitResult.validationError msg) ∧
    (∀ (name : List Char) (parentId : Option String),
      handleSubmit folderName parentDirectoryId =
          SubmitResult.request (Request.createDirectory name parentId) →
      name = jsTrim folderName ∧ name.length ≠ 0 ∧ name.length ≤ 255 ∧
        parentId = parentDirectoryId) := by
  constructor
  · intro h
    by_cases h0 : (jsTrim folderName).length = 0
    · exact ⟨"Folder name cannot be empty", by simp [handleSubmit, h0]⟩
    · have h1 : 255 < (jsTrim folderName).length := by
        rcases h with h | h
        · exact absurd h h0
        · exact h
      exact ⟨"Folder name is too long", by simp [handleSubmit, h0, h1]⟩
  · intro name parentId h
    by_cases h0 : (jsTrim folderName).length = 0
    · simp [handleSubmit, h0] at h
    · by_cases h1 : 255 < (jsTrim folderName).length
      · simp [handleSubmit, h0, h1] at h
      · simp [handleSubmit, h0, h1] at h
        refine ⟨h.1.symm, ?_, ?_, h.2.symm⟩
        · rw [← h.1]; exact h0
        · rw [← h.1]; omega

/-- Witness for the amended claim C9: the empty name is rejected with a
validation error and no network request. -/
theorem c9_amended_witness :
    ∃ msg, handleSubmit [] none = SubmitResult.validationError msg :=
  (c9_amended [] none).1 (Or.inl (by decide))

/-- Claim C10: the selection-list update of `handleSelectionToggle`
preserves duplicate-freedom — toggling a present id removes every
occurrence of it and toggling an absent id appends it exactly once — so
both selection lists of the toggled and cleared states stay duplicate
free. -/
theorem c10_selection_nodup :
    (∀ (prev : List String) (id : String), prev.Nodup → (toggleList prev id).Nodup) ∧
    (∀ (prev : List String) (id : String), prev.contains id = true →
        ¬ id ∈ toggleList prev id) ∧
    (∀ (prev : List String) (id : String), prev.contains id = false →
        (toggleList prev id).count id = 1) ∧
    (∀ (s : SelectionState) (id : String) (isDirectory : Bool),
        s.selectedFileIds.Nodup → s.selectedDirectoryIds.Nodup →
        (Part006.handleSelectionToggle s id isDirectory).selectedFileIds.Nodup ∧
        (Part006.handleSelectionToggle s id isDirectory).selectedDirectoryIds.Nodup) ∧
    handleClearSelection.selectedFileIds.Nodup ∧
    handleClearSelection.selectedDirectoryIds.Nodup := by
  refine ⟨toggleList_nodup, toggleList_removes, toggleList_adds_once, ?_,
    List.nodup_nil, List.nodup_nil⟩
  intro s id isDirectory hf hd
  rcases s with ⟨m, fs, ds⟩
  cases isDirectory with
  | false => exact ⟨toggleList_nodup fs id hf, hd⟩
  | true => exact ⟨hf, toggleList_nodup ds id hd⟩

/-- Witness for claim C10, discharging the duplicate-freedom and presence
hypotheses on concrete lists. -/
theorem c10_selection_nodup_witness :
    (toggleList ["a", "b"] "b").Nodup ∧ ¬ "b" ∈ toggleList ["a", "b"] "b" ∧
    (Part006.handleSelectionToggle ⟨false, ["a"], []⟩ "b" false).selectedFileIds.Nodup :=
  ⟨c10_selection_nodup.1 ["a", "b"] "b" (by decide),
   c10_selection_nodup.2.1 ["a", "b"] "b" (by decide),
   (c10_selection_nodup.2.2.2.1 ⟨false, ["a"], []⟩ "b" false (by decide) (by decide)).1⟩

end FileShare
